import Mathlib

/-!
Verification of the patient-management API (`main.py`): record validation,
derived-field computation (bmi/verdict), the JSON-file store, and the
CRUD/sort handlers, shallowly embedded over `ℚ` for Python floats.
-/

namespace PatientAPI

/-- Round a rational to the nearest integer, ties to even (the tie-breaking
rule of Python `round`). -/
def roundHalfEven (q : ℚ) : ℤ :=
  let n := ⌊q⌋
  let frac := q - n
  if frac < 1/2 then n
  else if 1/2 < frac then n + 1
  else if n % 2 = 0 then n else n + 1

/-- `round(x, 2)` from `Patient.bmi`: round to 2 decimal places. -/
def round2 (q : ℚ) : ℚ := (roundHalfEven (q * 100) : ℚ) / 100

/-- The detail string of the HTTP 400 raised by `sort_patients` for a bad
`sort_by` value: `f'Invalid field select from {valid_fields}'`. -/
def invalidFieldDetail : String := "Invalid field select from ['height', 'weight', 'bmi']"

/-- The `Patient` pydantic model's plain (non-computed) fields, after
validation. `id, name, city` are `str`, `age` is `int`, `gender` is a
string restricted by the `Literal`, `height, weight` are `float` (as `ℚ`). -/
structure Patient where
  id : String
  name : String
  city : String
  age : ℤ
  gender : String
  height : ℚ
  weight : ℚ
deriving Repr, DecidableEq

/-- The computed field `bmi`: `round(self.weight / (self.height ** 2), 2)`. -/
def Patient.bmi (p : Patient) : ℚ := round2 (p.weight / p.height ^ 2)

/-- The computed field `verdict`: the if/elif chain over `self.bmi`. -/
def Patient.verdict (p : Patient) : String :=
  if p.bmi < 18.5 then "Underweight"
  else if p.bmi < 25 then "Normal weight"
  else if p.bmi < 30 then "Overweight"
  else "Obesity"

/-- The verdict threshold table as a function of a (rounded) bmi value,
first match wins. `Patient.verdict p` is exactly `verdictOf p.bmi`. -/
def verdictOf (b : ℚ) : String :=
  if b < 18.5 then "Underweight"
  else if b < 25 then "Normal weight"
  else if b < 30 then "Overweight"
  else "Obesity"

/-- A value stored in `patients.json` under an id key: a JSON object that
may or may not carry each of the keys written by `model_dump(exclude={'id'})`.
`none` models an absent key (the file can be edited outside the app). -/
structure StoredRec where
  name : Option String
  city : Option String
  age : Option ℤ
  gender : Option String
  height : Option ℚ
  weight : Option ℚ
  bmi : Option ℚ
  verdict : Option String
deriving Repr, DecidableEq

/-- `patient.model_dump(exclude={'id'})`: all plain fields except `id`,
plus the computed fields `bmi` and `verdict`. -/
def Patient.dump (p : Patient) : StoredRec :=
  ⟨some p.name, some p.city, some p.age, some p.gender,
   some p.height, some p.weight, some p.bmi, some p.verdict⟩

/-- One field of a `Patientupdate` request body: the field may be absent
from the JSON body (`unset`), present with value `null`, or present with a
value.  `model_dump(exclude_unset=True)` keeps `null` and `set` fields. -/
inductive UpdField (α : Type) where
  | unset
  | null
  | set (v : α)
deriving Repr, DecidableEq

/-- The `Patientupdate` pydantic model: every field `Optional`, default
`None`; `exclude_unset` distinguishes an omitted field from an explicit
`null`. -/
structure Patientupdate where
  name : UpdField String
  city : UpdField String
  age : UpdField ℤ
  gender : UpdField String
  height : UpdField ℚ
  weight : UpdField ℚ
deriving Repr, DecidableEq

/-- `Patientupdate`'s own pydantic validation of the request body: a field
that is present and non-null must satisfy its constraints (`gt=0, lt=120`
for age, the gender `Literal`, `gt=0` for height and weight). FastAPI
rejects the request before the handler runs otherwise. -/
def validUpdate (u : Patientupdate) : Bool :=
  (match u.age with | .set a => decide (0 < a) && decide (a < 120) | _ => true) &&
  (match u.gender with | .set g => decide (g ∈ ["male", "female", "others"]) | _ => true) &&
  (match u.height with | .set h => decide (0 < h) | _ => true) &&
  (match u.weight with | .set w => decide (0 < w) | _ => true)

/-- One step of the merge loop `existing_patient_info[key] = value`:
a key absent from `model_dump(exclude_unset=True)` keeps the stored value,
a key present (with `null` or a value) overwrites it. -/
def mergeField {α : Type} (old : Option α) : UpdField α → Option α
  | .unset => old
  | .null => none
  | .set v => some v

/-- The merge loop of `update_patient` applied to every payload key.
The stale `bmi`/`verdict` keys of the stored object survive the merge (the
payload has no such keys); `Patient(**info)` ignores them (pydantic default
`extra='ignore'`) and `model_dump` recomputes them. -/
def mergeRec (r : StoredRec) (u : Patientupdate) : StoredRec :=
  { r with
    name := mergeField r.name u.name
    city := mergeField r.city u.city
    age := mergeField r.age u.age
    gender := mergeField r.gender u.gender
    height := mergeField r.height u.height
    weight := mergeField r.weight u.weight }

/-- Raw keyword arguments for `Patient(**info)`: each field either absent
(`none`, a missing key — pydantic reports a missing required field) or
present with a value. An explicit `None` value is likewise invalid for
these non-`Optional` fields and is folded into `none` here: both fail
validation identically for every claim below. -/
structure PatientInput where
  id : Option String
  name : Option String
  city : Option String
  age : Option ℤ
  gender : Option String
  height : Option ℚ
  weight : Option ℚ
deriving Repr, DecidableEq

/-- The gender `Literal['male', 'female', 'others']` of `main.py` line 14. -/
def genders : List String := ["male", "female", "others"]

/-- `Patient(**info)`: pydantic validation of the `Patient` model in field
declaration order. Constraints: `age` has `gt=0, lt=120`; `gender` must be
in the `Literal`; `height` and `weight` have `gt=0`. `name` and `city` are
plain `str` fields — any string, including the empty one, validates.
Returns the first offending field's name on failure. -/
def validatePatient (i : PatientInput) : Except String Patient :=
  match i.id with
  | none => .error "id"
  | some pid =>
    match i.name with
    | none => .error "name"
    | some nm =>
      match i.city with
      | none => .error "city"
      | some ct =>
        match i.age with
        | none => .error "age"
        | some a =>
          if 0 < a ∧ a < 120 then
            match i.gender with
            | none => .error "gender"
            | some g =>
              if g ∈ genders then
                match i.height with
                | none => .error "height"
                | some ht =>
                  if 0 < ht then
                    match i.weight with
                    | none => .error "weight"
                    | some w =>
                      if 0 < w then .ok ⟨pid, nm, ct, a, g, ht, w⟩
                      else .error "weight"
                  else .error "height"
              else .error "gender"
          else .error "age"

/-- `existing_patient_info['id'] = patient_id` followed by `Patient(**info)`
keyword extraction: the stored fields plus the id from the path. -/
def toInput (pid : String) (r : StoredRec) : PatientInput :=
  ⟨some pid, r.name, r.city, r.age, r.gender, r.height, r.weight⟩

/-- The in-memory form of `patients.json`: the Python dict mapping id to
stored record, as a key-value list in insertion order (Python dicts
preserve insertion order; `.values()` is the list of second components). -/
abbrev Store := List (String × StoredRec)

/-- Python dict assignment `data[k] = v`: replace the value at an existing
key in place, else append the new key at the end. -/
def setKey (s : Store) (k : String) (v : StoredRec) : Store :=
  match s with
  | [] => [(k, v)]
  | (k', v') :: t => if k' = k then (k, v) :: t else (k', v') :: setKey t k v

/-- Python `del data[k]`: remove the entry at key `k`. -/
def delKey (s : Store) (k : String) : Store :=
  match s with
  | [] => []
  | (k', v') :: t => if k' = k then t else (k', v') :: delKey t k

/-- Errors surfaced by the handlers: `raise HTTPException(status, detail)`,
or a pydantic `ValidationError` escaping `Patient(**info)` inside
`update_patient` (carrying the offending field). -/
inductive Err where
  | http (status : ℕ) (detail : String)
  | validationError (field : String)
deriving Repr, DecidableEq

/-- The state of the backing file `patients.json` as seen by `load_data`:
missing (`open` raises `FileNotFoundError`), present but undecodable
(`json.load` raises `JSONDecodeError`), or a well-formed mapping. -/
inductive FileState where
  | absent
  | corrupt
  | valid (data : Store)
deriving Repr

/-- `load_data`: parse the file; on `FileNotFoundError` or
`JSONDecodeError` return `{}`. -/
def load_data : FileState → Store
  | .absent => {}
  | .corrupt => {}
  | .valid d => d

/-- GET `/patient/{patient_id}`: return the stored record or 404.
The store argument is the result of the handler's `load_data()` call. -/
def view_patient (data : Store) (patient_id : String) : Except Err StoredRec :=
  match data.lookup patient_id with
  | some r => .ok r
  | none => .error (.http 404 "Patient not found")

/-- The `valid_fields` list of `sort_patients`. -/
def validFields : List String := ["height", "weight", "bmi"]

/-- `x.get(sort_by, 0)`: the sort key of one stored record, defaulting a
missing key to `0`. Only called with `sort_by ∈ valid_fields`. -/
def sortKey (sort_by : String) (x : StoredRec) : ℚ :=
  match sort_by with
  | "height" => x.height.getD 0
  | "weight" => x.weight.getD 0
  | "bmi" => x.bmi.getD 0
  | _ => 0

/-- Ascending comparison used by `sorted(...)` (stable, `reverse=False`). -/
def ascRel (sort_by : String) (a b : StoredRec) : Prop :=
  sortKey sort_by a ≤ sortKey sort_by b

/-- Comparison realising `sorted(..., reverse=True)`: a stable descending
sort, i.e. a stable sort under the flipped comparison. -/
def descRel (sort_by : String) (a b : StoredRec) : Prop :=
  sortKey sort_by b ≤ sortKey sort_by a

instance (f : String) : DecidableRel (ascRel f) :=
  fun a b => inferInstanceAs (Decidable (sortKey f a ≤ sortKey f b))

instance (f : String) : DecidableRel (descRel f) :=
  fun a b => inferInstanceAs (Decidable (sortKey f b ≤ sortKey f a))

instance (f : String) : IsTotal StoredRec (ascRel f) :=
  ⟨fun a b => le_total (sortKey f a) (sortKey f b)⟩

instance (f : String) : IsTrans StoredRec (ascRel f) :=
  ⟨fun _ _ _ h1 h2 => le_trans h1 h2⟩

instance (f : String) : IsTotal StoredRec (descRel f) :=
  ⟨fun a b => le_total (sortKey f b) (sortKey f a)⟩

instance (f : String) : IsTrans StoredRec (descRel f) :=
  ⟨fun _ _ _ h1 h2 => le_trans h2 h1⟩

/-- GET `/sort?sort_by=&order=`: validate `sort_by` against
`valid_fields`, validate `order`, then return
`sorted(data.values(), key=lambda x: x.get(sort_by, 0), reverse=sort_order)`.
Python's `sorted` is a stable sort, modelled by `List.insertionSort`
(stable); `reverse=True` is the stable sort under the flipped comparison.
Both parameter checks happen before `load_data()` is called. -/
def sort_patients (data : Store) (sort_by order : String) :
    Except Err (List StoredRec) :=
  if sort_by ∉ validFields then
    .error (.http 400 invalidFieldDetail)
  else if order ∉ ["asc", "desc"] then
    .error (.http 400 "Order must be either asc or desc")
  else if order = "desc" then
    .ok (List.insertionSort (descRel sort_by) (data.map Prod.snd))
  else
    .ok (List.insertionSort (ascRel sort_by) (data.map Prod.snd))

/-- POST `/create`: 400 if the id exists, else store
`patient.model_dump(exclude={'id'})` under `patient.id` and save. The
returned store is the content written by `save_data` (unchanged input
store when the handler raises before saving). -/
def create_patient (data : Store) (patient : Patient) :
    Store × Except Err StoredRec :=
  if (data.lookup patient.id).isSome then
    (data, .error (.http 400 "Patient with this ID already exists"))
  else
    (setKey data patient.id patient.dump, .ok patient.dump)

/-- PUT `/update/{patient_id}`: 404 if absent; else merge
`patient_update.model_dump(exclude_unset=True)` over the stored fields,
re-inject the id, reconstruct through `Patient(**info)` (recomputing
`bmi`/`verdict` and re-running all validation), store the new
`model_dump(exclude={'id'})` and save. A pydantic failure of the
reconstruction escapes before `save_data`, leaving the store unchanged. -/
def update_patient (data : Store) (patient_id : String) (u : Patientupdate) :
    Store × Except Err StoredRec :=
  match data.lookup patient_id with
  | none => (data, .error (.http 404 "Patient not found"))
  | some existing =>
    match validatePatient (toInput patient_id (mergeRec existing u)) with
    | .error f => (data, .error (.validationError f))
    | .ok p => (setKey data patient_id p.dump, .ok p.dump)

/-- DELETE `/delete/{patient_id}`: 404 if absent, else remove and save. -/
def delete_patient (data : Store) (patient_id : String) :
    Store × Except Err String :=
  match data.lookup patient_id with
  | none => (data, .error (.http 404 "Patient not found"))
  | some _ => (delKey data patient_id, .ok "Patient deleted successfully")

/-- GET `/view` composed with the file state: `load_data()` then wrap. -/
def view_ep (fs : FileState) : Store := load_data fs

/-- GET `/patient/{id}` composed with the file state. -/
def view_patient_ep (fs : FileState) (pid : String) : Except Err StoredRec :=
  view_patient (load_data fs) pid

/-- GET `/sort` composed with the file state. -/
def sort_ep (fs : FileState) (sort_by order : String) :
    Except Err (List StoredRec) :=
  sort_patients (load_data fs) sort_by order

/-- POST `/create` composed with the file state. -/
def create_ep (fs : FileState) (p : Patient) : Store × Except Err StoredRec :=
  create_patient (load_data fs) p

/-- PUT `/update/{id}` composed with the file state. -/
def update_ep (fs : FileState) (pid : String) (u : Patientupdate) :
    Store × Except Err StoredRec :=
  update_patient (load_data fs) pid u

/-- DELETE `/delete/{id}` composed with the file state. -/
def delete_ep (fs : FileState) (pid : String) : Store × Except Err String :=
  delete_patient (load_data fs) pid

/-- A `/update` body `{"weight": w}`: only `weight` supplied. -/
def weightOnly (w : ℚ) : Patientupdate :=
  ⟨.unset, .unset, .unset, .unset, .unset, .set w⟩

/-- A stored record whose derived fields agree with its stored
`height`/`weight` through the bmi formula and the verdict table. -/
def consistent (r : StoredRec) : Prop :=
  ∀ h w, r.height = some h → r.weight = some w →
    r.bmi = some (round2 (w / h ^ 2)) ∧
    r.verdict = some (verdictOf (round2 (w / h ^ 2)))

/-- Every record of the collection is `consistent`. -/
def WF (s : Store) : Prop := ∀ e ∈ s, consistent e.2

/-- Concrete patient used in witnesses. -/
def exPatient : Patient := ⟨"P001", "Ann", "Pune", 30, "male", 7/4, 70⟩

/-- Its stored image. -/
def exRec : StoredRec := exPatient.dump

/-- A stored record with no `height` key (externally edited store). -/
def badRec : StoredRec :=
  ⟨some "Bo", some "Agra", some 40, some "female", none, some 60, none, none⟩

/-- The record stored after updating `exPatient`'s entry with weight 80. -/
def wRec : StoredRec :=
  ⟨some "Ann", some "Pune", some 30, some "male", some (7/4), some 80,
   some (round2 (80 / (7/4) ^ 2)), some (verdictOf (round2 (80 / (7/4) ^ 2)))⟩

/-- A `/update` body `{"name": "Cy"}`: only `name` supplied. -/
def nameOnlyCy : Patientupdate :=
  ⟨.set "Cy", .unset, .unset, .unset, .unset, .unset⟩

/-- A `/update` body `{"weight": null}`: `weight` present, explicitly null. -/
def weightNull : Patientupdate :=
  ⟨.unset, .unset, .unset, .unset, .unset, .null⟩

/-- A stored record carrying only a `bmi` key (for sort examples). -/
def bmiOnly (q : ℚ) : StoredRec :=
  ⟨none, none, none, none, none, none, some q, none⟩

theorem verdict_eq_verdictOf (p : Patient) : p.verdict = verdictOf p.bmi := rfl

theorem validatePatient_intro (pid nm ct : String) (a : ℤ) (g : String)
    (ht w : ℚ) (ha1 : 0 < a) (ha2 : a < 120) (hg : g ∈ genders)
    (hh : 0 < ht) (hw : 0 < w) :
    validatePatient ⟨some pid, some nm, some ct, some a, some g, some ht, some w⟩ =
      .ok ⟨pid, nm, ct, a, g, ht, w⟩ := by
  simp [validatePatient, ha1, ha2, hg, hh, hw]

theorem validatePatient_ok (i : PatientInput) (p : Patient)
    (h : validatePatient i = .ok p) :
    i.id = some p.id ∧ i.name = some p.name ∧ i.city = some p.city ∧
    i.age = some p.age ∧ 0 < p.age ∧ p.age < 120 ∧
    i.gender = some p.gender ∧ p.gender ∈ genders ∧
    i.height = some p.height ∧ 0 < p.height ∧
    i.weight = some p.weight ∧ 0 < p.weight := by
  unfold validatePatient at h
  repeat' split at h
  all_goals simp_all
  all_goals (obtain ⟨rfl⟩ := h; simp_all)

theorem dump_consistent (p : Patient) : consistent p.dump := by
  intro h w hh hw
  simp [Patient.dump] at hh hw
  subst hh; subst hw
  exact ⟨rfl, congrArg some (verdict_eq_verdictOf p)⟩

theorem mem_setKey {s : Store} {k : String} {v : StoredRec}
    {e : String × StoredRec} (h : e ∈ setKey s k v) : e.2 = v ∨ e ∈ s := by
  induction s with
  | nil =>
    simp [setKey] at h
    subst h; exact Or.inl rfl
  | cons hd t ih =>
    obtain ⟨k', v'⟩ := hd
    rw [setKey] at h
    split at h
    · rcases List.mem_cons.mp h with rfl | hmem
      · exact Or.inl rfl
      · exact Or.inr (List.mem_cons_of_mem _ hmem)
    · rcases List.mem_cons.mp h with rfl | hmem
      · exact Or.inr (List.mem_cons_self _ _)
      · rcases ih hmem with h1 | h1
        · exact Or.inl h1
        · exact Or.inr (List.mem_cons_of_mem _ h1)

/-- C2: for every record with height > 0 and weight > 0, `bmi` equals
`round(weight / height^2, 2)` and `verdict` is determined from the rounded
bmi by the threshold table, first match winning: `< 18.5` Underweight,
`[18.5, 25)` Normal weight, `[25, 30)` Overweight, `≥ 30` Obesity; at the
boundaries, bmi = 18.5 gives Normal weight and bmi = 25 gives Overweight. -/
theorem bmi_verdict_thresholds (p : Patient)
    (hh : 0 < p.height) (hw : 0 < p.weight) :
    p.bmi = round2 (p.weight / p.height ^ 2) ∧
    (p.bmi < 18.5 → p.verdict = "Underweight") ∧
    (18.5 ≤ p.bmi → p.bmi < 25 → p.verdict = "Normal weight") ∧
    (25 ≤ p.bmi → p.bmi < 30 → p.verdict = "Overweight") ∧
    (30 ≤ p.bmi → p.verdict = "Obesity") ∧
    (p.bmi = 18.5 → p.verdict = "Normal weight") ∧
    (p.bmi = 25 → p.verdict = "Overweight") := by
  refine ⟨rfl, ?_, ?_, ?_, ?_, ?_, ?_⟩
  · intro h; simp [Patient.verdict, h]
  · intro h1 h2
    simp only [Patient.verdict]
    rw [if_neg (not_lt.mpr h1), if_pos h2]
  · intro h1 h2
    simp only [Patient.verdict]
    rw [if_neg (not_lt.mpr (le_trans (by norm_num) h1)),
        if_neg (not_lt.mpr h1), if_pos h2]
  · intro h1
    simp only [Patient.verdict]
    rw [if_neg (not_lt.mpr (le_trans (by norm_num) h1)),
        if_neg (not_lt.mpr (le_trans (by norm_num) h1)),
        if_neg (not_lt.mpr h1)]
  · intro h
    simp only [Patient.verdict]
    rw [if_neg (by rw [h]; norm_num), if_pos (by rw [h]; norm_num)]
  · intro h
    simp only [Patient.verdict]
    rw [if_neg (by rw [h]; norm_num), if_neg (by rw [h]; norm_num),
        if_pos (by rw [h]; norm_num)]

/-- Witness for C2 at the concrete patient `exPatient` (height 1.75 m,
weight 70 kg). -/
theorem bmi_verdict_thresholds_witness :
    (0 < exPatient.height ∧ 0 < exPatient.weight) ∧
    (exPatient.bmi = round2 (exPatient.weight / exPatient.height ^ 2) ∧
     (exPatient.bmi < 18.5 → exPatient.verdict = "Underweight") ∧
     (18.5 ≤ exPatient.bmi → exPatient.bmi < 25 →
       exPatient.verdict = "Normal weight") ∧
     (25 ≤ exPatient.bmi → exPatient.bmi < 30 →
       exPatient.verdict = "Overweight") ∧
     (30 ≤ exPatient.bmi → exPatient.verdict = "Obesity") ∧
     (exPatient.bmi = 18.5 → exPatient.verdict = "Normal weight") ∧
     (exPatient.bmi = 25 → exPatient.verdict = "Overweight")) :=
  ⟨⟨by norm_num [exPatient], by norm_num [exPatient]⟩,
   bmi_verdict_thresholds exPatient (by norm_num [exPatient])
     (by norm_num [exPatient])⟩

/-- C4: creating with an id already in the collection fails with the 400
conflict error and returns the collection unchanged (nothing is saved, the
existing record under that id included). -/
theorem create_conflict (data : Store) (p : Patient)
    (h : (data.lookup p.id).isSome = true) :
    create_patient data p =
      (data, .error (.http 400 "Patient with this ID already exists")) := by
  simp [create_patient, h]

/-- Witness for C4: creating `exPatient` over a store that already has key
"P001" fails and leaves the store as it was. -/
theorem create_conflict_witness :
    ((([("P001", badRec)] : Store).lookup exPatient.id).isSome = true) ∧
    create_patient [("P001", badRec)] exPatient =
      ([("P001", badRec)],
       .error (.http 400 "Patient with this ID already exists")) :=
  ⟨rfl, create_conflict [("P001", badRec)] exPatient rfl⟩

/-- Counterexample to C5 as stated: the code's gender enumeration is
`male / female / others`, not `male / female / other` — the value
"other" is rejected by validation. -/
theorem gender_other_rejected :
    validatePatient
      ⟨some "P002", some "Bo", some "Agra", some 40, some "other",
       some 2, some 60⟩ = .error "gender" := by
  have hg : ("other" : String) ∉ genders := by decide
  norm_num [validatePatient, hg]

/-- C5 as amended: record construction accepts a gender exactly when it is
one of {male, female, others}; any other string (e.g. "other") fails
validation naming the gender field. -/
theorem gender_enum (pid nm ct : String) (a : ℤ) (g : String) (ht w : ℚ)
    (ha1 : 0 < a) (ha2 : a < 120) (hh : 0 < ht) (hw : 0 < w) :
    (g ∈ genders →
      validatePatient
        ⟨some pid, some nm, some ct, some a, some g, some ht, some w⟩ =
        .ok ⟨pid, nm, ct, a, g, ht, w⟩) ∧
    (g ∉ genders →
      validatePatient
        ⟨some pid, some nm, some ct, some a, some g, some ht, some w⟩ =
        .error "gender") := by
  constructor
  · intro hg; exact validatePatient_intro pid nm ct a g ht w ha1 ha2 hg hh hw
  · intro hg; simp [validatePatient, ha1, ha2, hg]

/-- Witness for C5 at gender "others" (accepted) with the other fields
concrete and valid. -/
theorem gender_enum_witness :
    (0 < (40 : ℤ) ∧ (40 : ℤ) < 120 ∧ (0 : ℚ) < 2 ∧ (0 : ℚ) < 60) ∧
    ((("others" : String) ∈ genders →
      validatePatient
        ⟨some "P002", some "Bo", some "Agra", some 40, some "others",
         some 2, some 60⟩ =
        .ok ⟨"P002", "Bo", "Agra", 40, "others", 2, 60⟩) ∧
     (("others" : String) ∉ genders →
      validatePatient
        ⟨some "P002", some "Bo", some "Agra", some 40, some "others",
         some 2, some 60⟩ = .error "gender")) :=
  ⟨⟨by decide, by decide, by norm_num, by norm_num⟩,
   gender_enum "P002" "Bo" "Agra" 40 "others" 2 60
     (by decide) (by decide) (by norm_num) (by norm_num)⟩

/-- Counterexample to C6 as stated: the code puts no non-empty constraint
on `name` or `city` — constructing with both empty succeeds. -/
theorem empty_name_city_accepted :
    validatePatient
      ⟨some "P001", some "", some "", some 30, some "male", some 2, some 60⟩ =
      .ok ⟨"P001", "", "", 30, "male", 2, 60⟩ :=
  validatePatient_intro "P001" "" "" 30 "male" 2 60
    (by decide) (by decide) (by decide) (by norm_num) (by norm_num)

/-- C6 as amended: `name` and `city` are plain string fields — every
string, the empty string included, is accepted; validation fails naming
the field only when it is missing (or explicitly null). -/
theorem name_city_any_string (pid nm ct : String) (a : ℤ) (g : String)
    (ht w : ℚ) (ha1 : 0 < a) (ha2 : a < 120) (hg : g ∈ genders)
    (hh : 0 < ht) (hw : 0 < w) :
    validatePatient
      ⟨some pid, some nm, some ct, some a, some g, some ht, some w⟩ =
      .ok ⟨pid, nm, ct, a, g, ht, w⟩ ∧
    validatePatient
      ⟨some pid, none, some ct, some a, some g, some ht, some w⟩ =
      .error "name" ∧
    validatePatient
      ⟨some pid, some nm, none, some a, some g, some ht, some w⟩ =
      .error "city" :=
  ⟨validatePatient_intro pid nm ct a g ht w ha1 ha2 hg hh hw,
   by simp [validatePatient], by simp [validatePatient]⟩

/-- Witness for C6 at empty `name` and `city` with the other fields
concrete and valid. -/
theorem name_city_any_string_witness :
    (0 < (30 : ℤ) ∧ (30 : ℤ) < 120 ∧ ("male" : String) ∈ genders ∧
     (0 : ℚ) < 2 ∧ (0 : ℚ) < 60) ∧
    (validatePatient
      ⟨some "P001", some "", some "", some 30, some "male", some 2, some 60⟩ =
      .ok ⟨"P001", "", "", 30, "male", 2, 60⟩ ∧
     validatePatient
      ⟨some "P001", none, some "", some 30, some "male", some 2, some 60⟩ =
      .error "name" ∧
     validatePatient
      ⟨some "P001", some "", none, some 30, some "male", some 2, some 60⟩ =
      .error "city") :=
  ⟨⟨by decide, by decide, by decide, by norm_num, by norm_num⟩,
   name_city_any_string "P001" "" "" 30 "male" 2 60
     (by decide) (by decide) (by decide) (by norm_num) (by norm_num)⟩

/-- C7: for every valid sort field and direction, `/sort` returns the
collection's values (dropping the id keys) as a permutation of the stored
values ordered by the chosen field — ascending for `asc`, descending for
`desc` — where a record missing the chosen field is keyed as `0`
(`sortKey` uses `x.get(sort_by, 0)`) instead of failing the sort. -/
theorem sort_orders_values (data : Store) (f o : String)
    (hf : f ∈ validFields) (ho : o ∈ ["asc", "desc"]) :
    ∃ l, sort_patients data f o = .ok l ∧
      l.Perm (data.map Prod.snd) ∧
      (o = "asc" → l.Sorted (ascRel f)) ∧
      (o = "desc" → l.Sorted (descRel f)) := by
  have ho' : o = "asc" ∨ o = "desc" := by simpa using ho
  rcases ho' with rfl | rfl
  · refine ⟨_, ?_, List.perm_insertionSort _ _,
      fun _ => List.sorted_insertionSort _ _, fun h => absurd h (by decide)⟩
    simp [sort_patients, hf]
  · refine ⟨_, ?_, List.perm_insertionSort _ _,
      fun h => absurd h (by decide), fun _ => List.sorted_insertionSort _ _⟩
    simp [sort_patients, hf]

/-- Witness for C7: sorting by bmi descending over three records with bmi
18, 22 and 31. -/
theorem sort_orders_values_witness :
    (("bmi" : String) ∈ validFields ∧ ("desc" : String) ∈ ["asc", "desc"]) ∧
    (∃ l, sort_patients
        [("A", bmiOnly 18), ("B", bmiOnly 22), ("C", bmiOnly 31)] "bmi" "desc" =
        .ok l ∧
      l.Perm ([("A", bmiOnly 18), ("B", bmiOnly 22),
               ("C", bmiOnly 31)].map Prod.snd) ∧
      ("desc" = "asc" → l.Sorted (ascRel "bmi")) ∧
      ("desc" = "desc" → l.Sorted (descRel "bmi"))) :=
  ⟨⟨by decide, by decide⟩,
   sort_orders_values [("A", bmiOnly 18), ("B", bmiOnly 22), ("C", bmiOnly 31)]
     "bmi" "desc" (by decide) (by decide)⟩

/-- C8: `/sort` rejects a `sort_by` outside {height, weight, bmi} with a
400 whose detail names the valid set, and (the field being valid, as the
field check runs first) an `order` outside {asc, desc} with a 400; both
checks precede `load_data()`, so the error is the same for every store. -/
theorem sort_param_checks :
    (∀ (data : Store) (f o : String), f ∉ validFields →
      sort_patients data f o = .error (.http 400 invalidFieldDetail)) ∧
    (∀ (data : Store) (f o : String), f ∈ validFields → o ∉ ["asc", "desc"] →
      sort_patients data f o =
        .error (.http 400 "Order must be either asc or desc")) := by
  constructor
  · intro data f o hf; simp [sort_patients, hf]
  · intro data f o hf ho; simp [sort_patients, hf, ho]

/-- Witness for C8 at `sort_by=invalidfield` and at `order=up`. -/
theorem sort_param_checks_witness :
    (("invalidfield" : String) ∉ validFields ∧
      sort_patients [("A", bmiOnly 18)] "invalidfield" "asc" =
        .error (.http 400 invalidFieldDetail)) ∧
    (("height" : String) ∈ validFields ∧ ("up" : String) ∉ ["asc", "desc"] ∧
      sort_patients [("A", bmiOnly 18)] "height" "up" =
        .error (.http 400 "Order must be either asc or desc")) :=
  ⟨⟨by decide,
    sort_param_checks.1 [("A", bmiOnly 18)] "invalidfield" "asc" (by decide)⟩,
   ⟨by decide, by decide,
    sort_param_checks.2 [("A", bmiOnly 18)] "height" "up"
      (by decide) (by decide)⟩⟩

/-- C9: `load_data` returns the whole mapping; a missing file
(`FileNotFoundError`) or an undecodable one (`JSONDecodeError`) yields the
empty mapping with no error surfaced, so every endpoint behaves on a
missing or corrupt store exactly as on an empty one. -/
theorem load_data_fail_open :
    load_data .absent = ({} : Store) ∧ load_data .corrupt = ({} : Store) ∧
    (∀ fs : FileState, fs = .absent ∨ fs = .corrupt →
      view_ep fs = view_ep (.valid {}) ∧
      (∀ pid, view_patient_ep fs pid = view_patient_ep (.valid {}) pid) ∧
      (∀ f o, sort_ep fs f o = sort_ep (.valid {}) f o) ∧
      (∀ p, create_ep fs p = create_ep (.valid {}) p) ∧
      (∀ pid u, update_ep fs pid u = update_ep (.valid {}) pid u) ∧
      (∀ pid, delete_ep fs pid = delete_ep (.valid {}) pid)) := by
  refine ⟨rfl, rfl, ?_⟩
  rintro fs (rfl | rfl) <;>
    exact ⟨rfl, fun _ => rfl, fun _ _ => rfl, fun _ => rfl,
           fun _ _ => rfl, fun _ => rfl⟩

/-- Witness for C9 at the absent-file state. -/
theorem load_data_fail_open_witness :
    (FileState.absent = FileState.absent ∨ FileState.absent = FileState.corrupt) ∧
    (view_ep .absent = view_ep (.valid {}) ∧
     (∀ pid, view_patient_ep .absent pid = view_patient_ep (.valid {}) pid) ∧
     (∀ f o, sort_ep .absent f o = sort_ep (.valid {}) f o) ∧
     (∀ p, create_ep .absent p = create_ep (.valid {}) p) ∧
     (∀ pid u, update_ep .absent pid u = update_ep (.valid {}) pid u) ∧
     (∀ pid, delete_ep .absent pid = delete_ep (.valid {}) pid)) :=
  ⟨Or.inl rfl, load_data_fail_open.2.2 .absent (Or.inl rfl)⟩

/-- C3: create and update preserve the collection invariant that every
record's stored `bmi` and `verdict` are exactly the pure functions of its
stored `height` and `weight` (`round2` of weight/height² and the verdict
table): the only record either operation writes is a fresh
`model_dump` of a just-constructed `Patient`, whose computed fields are
recomputed from the merged height and weight. -/
theorem derived_fields_invariant (data : Store) (p : Patient) (pid : String)
    (u : Patientupdate) (hwf : WF data) :
    WF (create_patient data p).1 ∧ WF (update_patient data pid u).1 := by
  constructor
  · unfold create_patient
    split
    · exact hwf
    · intro e he
      rcases mem_setKey he with h | h
      · rw [h]; exact dump_consistent p
      · exact hwf e h
  · unfold update_patient
    split
    · exact hwf
    · split
      · exact hwf
      · intro e he
        rcases mem_setKey he with h | h
        · rw [h]; exact dump_consistent _
        · exact hwf e h

/-- Witness for C3: creating `exPatient` in the empty store and updating a
missing id both leave a store in which all derived fields are consistent. -/
theorem derived_fields_invariant_witness :
    WF ([] : Store) ∧
    (WF (create_patient [] exPatient).1 ∧
     WF (update_patient [] "P009" (weightOnly 80)).1) :=
  ⟨by simp [WF],
   derived_fields_invariant [] exPatient "P009" (weightOnly 80) (by simp [WF])⟩

/-- C1: update merges — existing stored fields first, payload fields
overlaid, id re-injected — and reconstructs through the `Patient` model.
Part 1: updating only `weight` leaves name, city, age, gender and height
unchanged and recomputes `bmi`/`verdict` from the merged (new) weight and
(old) height. Part 2: full validation re-runs on the merged record, so an
update fails validation when the merged record holds an invalid value even
if that field was not supplied by this update (here: a stored record whose
height is missing or non-positive, updated without touching height). -/
theorem update_merge_reconstruct :
    (∀ (data : Store) (pid : String) (r : StoredRec) (nm ct : String)
        (a : ℤ) (g : String) (ht w : ℚ),
      data.lookup pid = some r →
      r.name = some nm → r.city = some ct → r.age = some a →
      0 < a → a < 120 → r.gender = some g → g ∈ genders →
      r.height = some ht → 0 < ht → 0 < w →
      update_patient data pid (weightOnly w) =
        (setKey data pid
          ⟨some nm, some ct, some a, some g, some ht, some w,
           some (round2 (w / ht ^ 2)), some (verdictOf (round2 (w / ht ^ 2)))⟩,
         .ok ⟨some nm, some ct, some a, some g, some ht, some w,
           some (round2 (w / ht ^ 2)),
           some (verdictOf (round2 (w / ht ^ 2)))⟩)) ∧
    (∀ (data : Store) (pid : String) (r : StoredRec) (u : Patientupdate),
      data.lookup pid = some r → validUpdate u = true → u.height = .unset →
      (∀ x, r.height = some x → ¬ 0 < x) →
      ∃ fld, update_patient data pid u =
        (data, .error (.validationError fld))) := by
  constructor
  · intro data pid r nm ct a g ht w hlk hnm hct hag ha1 ha2 hg hgm hht hh hw
    have hmerge : toInput pid (mergeRec r (weightOnly w)) =
        ⟨some pid, some nm, some ct, some a, some g, some ht, some w⟩ := by
      simp [toInput, mergeRec, mergeField, weightOnly, hnm, hct, hag, hg, hht]
    have hval := validatePatient_intro pid nm ct a g ht w ha1 ha2 hgm hh hw
    simp [update_patient, hlk, hmerge, hval, Patient.dump, Patient.bmi,
          verdict_eq_verdictOf]
  · intro data pid r u hlk hvu huh hbad
    cases hv : validatePatient (toInput pid (mergeRec r u)) with
    | error fld => exact ⟨fld, by simp [update_patient, hlk, hv]⟩
    | ok p =>
      exfalso
      obtain ⟨-, -, -, -, -, -, -, -, hih, hpos, -, -⟩ :=
        validatePatient_ok _ _ hv
      have hti : (toInput pid (mergeRec r u)).height = r.height := by
        simp [toInput, mergeRec, mergeField, huh]
      rw [hti] at hih
      exact hbad p.height hih hpos

/-- Witness for C1: part 1 at `exPatient`'s stored record updated with
weight 80 (bmi/verdict recomputed, all other fields kept), part 2 at a
stored record with no height, updated with only a new name. -/
theorem update_merge_reconstruct_witness :
    (List.lookup "P001" [("P001", exRec)] = some exRec ∧
     update_patient [("P001", exRec)] "P001" (weightOnly 80) =
       (setKey [("P001", exRec)] "P001" wRec, .ok wRec)) ∧
    (List.lookup "P003" [("P003", badRec)] = some badRec ∧
     ∃ fld, update_patient [("P003", badRec)] "P003" nameOnlyCy =
       ([("P003", badRec)], .error (.validationError fld))) :=
  ⟨⟨rfl,
    update_merge_reconstruct.1 [("P001", exRec)] "P001" exRec
      "Ann" "Pune" 30 "male" (7/4) 80 rfl rfl rfl rfl
      (by decide) (by decide) rfl (by decide) rfl
      (by norm_num) (by norm_num)⟩,
   ⟨rfl,
    update_merge_reconstruct.2 [("P003", badRec)] "P003" badRec nameOnlyCy
      rfl (by decide) rfl (by simp [badRec])⟩⟩

/-- C10: in an update, a field supplied as an explicit null is kept by the
`exclude_unset` merge (not dropped like an absent field): it overwrites
the stored value with null, the `Patient` reconstruction then fails
validation, and the update is rejected with the collection unchanged —
the field is not silently left at its previous value. -/
theorem update_null_not_ignored (data : Store) (pid : String) (r : StoredRec)
    (u : Patientupdate) (hlk : data.lookup pid = some r)
    (hvu : validUpdate u = true)
    (hnull : u.name = .null ∨ u.city = .null ∨ u.age = .null ∨
             u.gender = .null ∨ u.height = .null ∨ u.weight = .null) :
    (u.name = .null → (mergeRec r u).name = none) ∧
    (u.city = .null → (mergeRec r u).city = none) ∧
    (u.age = .null → (mergeRec r u).age = none) ∧
    (u.gender = .null → (mergeRec r u).gender = none) ∧
    (u.height = .null → (mergeRec r u).height = none) ∧
    (u.weight = .null → (mergeRec r u).weight = none) ∧
    ∃ fld, update_patient data pid u =
      (data, .error (.validationError fld)) := by
  refine ⟨fun h => by simp [mergeRec, mergeField, h],
          fun h => by simp [mergeRec, mergeField, h],
          fun h => by simp [mergeRec, mergeField, h],
          fun h => by simp [mergeRec, mergeField, h],
          fun h => by simp [mergeRec, mergeField, h],
          fun h => by simp [mergeRec, mergeField, h], ?_⟩
  cases hv : validatePatient (toInput pid (mergeRec r u)) with
  | error fld => exact ⟨fld, by simp [update_patient, hlk, hv]⟩
  | ok p =>
    exfalso
    obtain ⟨-, hnm, hct, hag, -, -, hg, -, hht, -, hw, -⟩ :=
      validatePatient_ok _ _ hv
    rcases hnull with hn | hn | hn | hn | hn | hn
    · simp [toInput, mergeRec, mergeField, hn] at hnm
    · simp [toInput, mergeRec, mergeField, hn] at hct
    · simp [toInput, mergeRec, mergeField, hn] at hag
    · simp [toInput, mergeRec, mergeField, hn] at hg
    · simp [toInput, mergeRec, mergeField, hn] at hht
    · simp [toInput, mergeRec, mergeField, hn] at hw

/-- Witness for C10: updating `exPatient`'s stored record with body
`{"weight": null}` is rejected and the store is unchanged. -/
theorem update_null_not_ignored_witness :
    (List.lookup "P001" [("P001", exRec)] = some exRec ∧
     validUpdate weightNull = true) ∧
    ((weightNull.name = .null → (mergeRec exRec weightNull).name = none) ∧
     (weightNull.city = .null → (mergeRec exRec weightNull).city = none) ∧
     (weightNull.age = .null → (mergeRec exRec weightNull).age = none) ∧
     (weightNull.gender = .null → (mergeRec exRec weightNull).gender = none) ∧
     (weightNull.height = .null → (mergeRec exRec weightNull).height = none) ∧
     (weightNull.weight = .null → (mergeRec exRec weightNull).weight = none) ∧
     ∃ fld, update_patient [("P001", exRec)] "P001" weightNull =
       ([("P001", exRec)], .error (.validationError fld))) :=
  ⟨⟨rfl, by decide⟩,
   update_null_not_ignored [("P001", exRec)] "P001" exRec weightNull
     rfl (by decide)
     (Or.inr (Or.inr (Or.inr (Or.inr (Or.inr rfl)))))⟩

end PatientAPI
